import Mathlib

/-!
Verification of the booking orchestration core of the flight-booking
simulator.  The Go sources are shallowly embedded: relational tables and the
Redis lock store become finite maps (functions into `Option`), SQL updates
become store transformers returning `Except`/`Option` errors, and the
Temporal `BookingWorkflow` becomes an executable function of its input plus
an environment supplying signal arrivals and activity outcomes.  Time is
modelled in whole seconds.
-/

/-! ## Domain model (internal/domain/order.go, internal/domain/seat.go) -/

/-- Order status enumeration, mirroring the Go `OrderStatus` string constants
`CREATED`, `SEATS_RESERVED`, `PAYMENT_PENDING`, `PAYMENT_PROCESSING`,
`CONFIRMED`, `FAILED`, `EXPIRED`. -/
inductive OrderStatus
  | created
  | seatsReserved
  | paymentPending
  | paymentProcessing
  | confirmed
  | failed
  | expired
deriving DecidableEq, Repr

/-- Seat status enumeration mirroring the `status` column of the `seats`
table: `available`, `reserved`, `booked`. -/
inductive SeatStatus
  | available
  | reserved
  | booked
deriving DecidableEq, Repr

/-- `Order.IsTerminal` from the domain package. -/
def isTerminal (s : OrderStatus) : Bool :=
  s == OrderStatus.confirmed || s == OrderStatus.failed || s == OrderStatus.expired

/-- `Order.CanTransitionTo` from the domain package: the `validTransitions`
map followed by membership in the allowed list; statuses absent from the map
(the terminal ones) allow no transition. -/
def canTransitionTo (cur target : OrderStatus) : Bool :=
  match cur with
  | OrderStatus.created =>
      target == OrderStatus.seatsReserved || target == OrderStatus.failed
  | OrderStatus.seatsReserved =>
      target == OrderStatus.paymentPending || target == OrderStatus.expired
        || target == OrderStatus.failed
  | OrderStatus.paymentPending =>
      target == OrderStatus.paymentProcessing || target == OrderStatus.expired
        || target == OrderStatus.failed
  | OrderStatus.paymentProcessing =>
      target == OrderStatus.confirmed || target == OrderStatus.failed
  | _ => false

/-! ## Order store (repository/OrderRepo) -/

/-- A persisted order row (columns of the `orders` table that the claims
touch). -/
structure OrderRow where
  id : String
  status : OrderStatus
  seats : List String
  expiresAt : Option Int
  confirmedAt : Option Int
  failureReason : Option String
deriving DecidableEq, Repr

/-- The `orders` table: order id to row. -/
def OrderStore : Type := String → Option OrderRow

/-- Errors surfaced by `OrderRepo` (`domain.ErrOrderNotFound` when
`RowsAffected` is zero). -/
inductive RepoError
  | orderNotFound
deriving DecidableEq, Repr

/-- Point update of one row of the `orders` table. -/
def orderWrite (store : OrderStore) (id : String) (row : OrderRow) : OrderStore :=
  fun k => if k = id then some row else store k

/-- `OrderRepo.UpdateStatus`: `UPDATE orders SET status = $1 WHERE id = $2`.
The `WHERE` clause checks only the id; any status value is written for any
existing row. -/
def updateStatus (store : OrderStore) (id : String) (status : OrderStatus) :
    Except RepoError OrderStore :=
  match store id with
  | none => Except.error RepoError.orderNotFound
  | some row => Except.ok (orderWrite store id { row with status := status })

/-- `OrderRepo.Confirm`: unconditionally sets `status = CONFIRMED` and stamps
`confirmed_at` for the given id. -/
def confirmRow (store : OrderStore) (id : String) (now : Int) :
    Except RepoError OrderStore :=
  match store id with
  | none => Except.error RepoError.orderNotFound
  | some row =>
      Except.ok (orderWrite store id
        { row with status := OrderStatus.confirmed, confirmedAt := some now })

/-- `OrderRepo.Fail`: unconditionally sets `status = FAILED` and the failure
reason for the given id. -/
def failRow (store : OrderStore) (id : String) (reason : String) :
    Except RepoError OrderStore :=
  match store id with
  | none => Except.error RepoError.orderNotFound
  | some row =>
      Except.ok (orderWrite store id
        { row with status := OrderStatus.failed, failureReason := some reason })

/-- `OrderRepo.Expire`: unconditionally sets `status = EXPIRED` for the given
id. -/
def expireRow (store : OrderStore) (id : String) : Except RepoError OrderStore :=
  match store id with
  | none => Except.error RepoError.orderNotFound
  | some row =>
      Except.ok (orderWrite store id { row with status := OrderStatus.expired })

/-! ## Payment simulator (activities/payment_validation.go) -/

/-- Non-retryable application error type strings from internal/temporal. -/
def errTypeInvalidPaymentCode : String := "INVALID_PAYMENT_CODE"

/-- The `PAYMENT_DECLINED` application error type string. -/
def errTypePaymentDeclined : String := "PAYMENT_DECLINED"

/-- The regular expression check compiled from the pattern of exactly five
decimal digits, shared by the payment activity and the service layer. -/
def paymentCodeMatches (code : String) : Bool :=
  code.length == 5 && code.toList.all (fun ch => ch.isDigit)

/-- `isValidPaymentCode` from booking_service.go: same five-digit check. -/
def isValidPaymentCode (code : String) : Bool :=
  paymentCodeMatches code

/-- Outcome of a payment validation: success with a message, or an
application error carrying an optional typed classification (a plain Go
error has no application-error type, modelled as `none`). -/
inductive PaymentOutcome
  | success (message : String)
  | appFailure (errType : Option String) (message : String)
deriving DecidableEq, Repr

/-- Result of one `ValidatePayment` call: the simulated processing delay in
seconds and the outcome. -/
structure PaymentSimResult where
  delaySeconds : Nat
  outcome : PaymentOutcome
deriving DecidableEq, Repr

/-- `BookingActivities.ValidatePayment`.  The random processing time (1 to 8
seconds) and the failure-rate draw are passed in as parameters
`processingSeconds` and `gatewayFails` since they come from a random source
in the activity. -/
def validatePayment (paymentCode : String) (processingSeconds : Nat)
    (gatewayFails : Bool) : PaymentSimResult :=
  if paymentCodeMatches paymentCode then
    if paymentCode = "00000" then
      ⟨0, PaymentOutcome.appFailure (some errTypePaymentDeclined)
            "payment declined: insufficient funds"⟩
    else if paymentCode = "99999" then
      ⟨0, PaymentOutcome.success "Payment validated (test mode)"⟩
    else if gatewayFails then
      ⟨processingSeconds, PaymentOutcome.appFailure none
            "payment validation failed: temporary gateway error"⟩
    else
      ⟨processingSeconds, PaymentOutcome.success "Payment validated successfully"⟩
  else
    ⟨0, PaymentOutcome.appFailure (some errTypeInvalidPaymentCode)
          "payment code must be 5 digits"⟩

/-- The workflow treats exactly these application error types as
non-retryable (part of the payment activity options and of the manual retry
loop in the booking workflow). -/
def nonRetryableErrorTypes : List String :=
  [errTypeInvalidPaymentCode, errTypePaymentDeclined]

/-- Whether an outcome is one of the workflow's non-retryable payment
failures. -/
def isNonRetryableOutcome (o : PaymentOutcome) : Bool :=
  match o with
  | PaymentOutcome.appFailure (some t) _ => nonRetryableErrorTypes.contains t
  | _ => false

/-! ## Service layer status query (service/booking_service.go) -/

/-- The status object returned to the HTTP layer (`OrderStatusResponse`). -/
structure StatusView where
  orderID : String
  status : OrderStatus
  seats : List String
  timerRemaining : Int
  paymentAttempts : Nat
  lastError : String
deriving DecidableEq, Repr

/-- Service-level errors relevant to `GetOrderStatus`. -/
inductive ServiceError
  | orderNotFound
deriving DecidableEq, Repr

/-- The database fallback branch of `BookingService.GetOrderStatus`: builds
the response from the persisted row.  `timerRemaining` is recomputed from the
row's `expires_at` against the current time (`time.Until`, truncated to
seconds, floored at zero). -/
def getOrderStatusFallback (order : OrderRow) (now : Int) : StatusView :=
  let timerRemaining : Int :=
    match order.expiresAt with
    | some t => if t - now > 0 then t - now else 0
    | none => 0
  { orderID := order.id
    status := order.status
    seats := order.seats
    timerRemaining := timerRemaining
    paymentAttempts := 0
    lastError := order.failureReason.getD "" }

/-- `BookingService.GetOrderStatus`: first the workflow query; if the query
fails (`queryResult = none`, e.g. the workflow is closed), fall through to
the order store; a missing row is `ErrOrderNotFound`. -/
def getOrderStatus (queryResult : Option StatusView) (dbRow : Option OrderRow)
    (now : Int) : Except ServiceError StatusView :=
  match queryResult with
  | some s => Except.ok s
  | none =>
      match dbRow with
      | none => Except.error ServiceError.orderNotFound
      | some o => Except.ok (getOrderStatusFallback o now)

/-! ## Go string slicing in the payment-signal handler (workflow + api) -/

/-- Go string slicing `s[:n]`: defined only when `n` is within bounds,
otherwise the program panics (`none`). -/
def goStringSliceTo (s : String) (n : Nat) : Option String :=
  if n ≤ s.length then some (String.mk (s.toList.take n)) else none

/-- The masked-code expression `paymentSignal.PaymentCode[:2] + "***"` in the
workflow's payment-signal handler. -/
def maskPaymentCode (code : String) : Option String :=
  (goStringSliceTo code 2).map (fun p => p ++ "***")

/-- The only payment-code check in `Handlers.SubmitPayment` before calling
the service: reject the empty string. -/
def submitPaymentGuard (paymentCode : String) : Bool :=
  paymentCode != ""

/-! ## Lock store (repository/SeatLockRepo over Redis) -/

/-- Key layout `seat:lock:<flightID>:<seatID>`. -/
def seatLockKey (flightID seatID : String) : String :=
  "seat:lock:" ++ flightID ++ ":" ++ seatID

/-- One Redis lock entry: the owning order id and the TTL it was written
with. -/
structure LockEntry where
  owner : String
  ttl : Nat
deriving DecidableEq, Repr

/-- The Redis keyspace restricted to seat-lock keys. -/
def LockStore : Type := String → Option LockEntry

/-- `SET key value ttl`. -/
def lockWrite (store : LockStore) (k : String) (e : LockEntry) : LockStore :=
  fun key => if key = k then some e else store key

/-- `DEL key`. -/
def lockDelete (store : LockStore) (k : String) : LockStore :=
  fun key => if key = k then none else store key

/-- The owner check of `LockSeats`' first pass for one seat: `some o` when
the key exists with owner `o` different from the requesting order. -/
def foreignOwner (store : LockStore) (flightID seatID orderID : String) :
    Option String :=
  match store (seatLockKey flightID seatID) with
  | some e => if e.owner = orderID then none else some e.owner
  | none => none

/-- Errors of `SeatLockRepo.LockSeats`. -/
inductive LockError
  | alreadyLocked (seatID : String) (existingOrderID : String)
deriving DecidableEq, Repr

/-- `SeatLockRepo.LockSeats`: first pass reads every key and fails on the
first seat whose entry is owned by a different order; second pass writes all
keys with the requested TTL (plain `SET`, so same-owner entries are
refreshed). -/
def lockSeats (store : LockStore) (flightID : String) (seatIDs : List String)
    (orderID : String) (ttl : Nat) : Except LockError LockStore :=
  match seatIDs.find? (fun s => (foreignOwner store flightID s orderID).isSome) with
  | some s =>
      Except.error (LockError.alreadyLocked s
        ((foreignOwner store flightID s orderID).getD ""))
  | none =>
      Except.ok (seatIDs.foldl
        (fun st s => lockWrite st (seatLockKey flightID s) ⟨orderID, ttl⟩) store)

/-- The compare-and-delete Lua script of `ReleaseLocks` for a single key:
delete only when the stored value equals the calling order. -/
def releaseLock1 (store : LockStore) (k : String) (orderID : String) : LockStore :=
  match store k with
  | some e => if e.owner = orderID then lockDelete store k else store
  | none => store

/-- `SeatLockRepo.ReleaseLocks`: run the compare-and-delete script for each
seat in order.  Missing keys and foreign-owned keys are silent no-ops. -/
def releaseLocks (store : LockStore) (flightID : String) (seatIDs : List String)
    (orderID : String) : LockStore :=
  seatIDs.foldl (fun st s => releaseLock1 st (seatLockKey flightID s) orderID) store

/-! ## Flight store (repository/FlightRepo) -/

/-- One row of the `seats` table (for a fixed flight/seat key). -/
structure SeatRow where
  status : SeatStatus
  orderID : Option String
deriving DecidableEq, Repr

/-- The relational state touched by `FlightRepo`: the `seats` table keyed by
(flight id, seat id) and the `available_seats` counter of each flight row. -/
structure FlightsDb where
  seatRow : String → String → Option SeatRow
  availableSeats : String → Option Int

/-- Point update of one seat row. -/
def setSeatRow (db : FlightsDb) (flightID seatID : String) (row : SeatRow) :
    FlightsDb :=
  { db with
      seatRow := fun f s =>
        if f = flightID ∧ s = seatID then some row else db.seatRow f s }

/-- `FlightRepo.BookSeats`:
`UPDATE seats SET status = booked, order_id = $1 WHERE flight_id = $2 AND id = ANY($3)`.
The predicate checks only flight and seat id — not the current status nor the
current owner.  The error (`some message`) is raised only when the number of
affected rows differs from the number of requested seats; the update itself
has already been applied (single statement, no transaction to roll back). -/
def bookSeats (db : FlightsDb) (flightID : String) (seatIDs : List String)
    (orderID : String) : FlightsDb × Option String :=
  let rowsAffected :=
    (seatIDs.eraseDups.filter (fun s => (db.seatRow flightID s).isSome)).length
  let db' := seatIDs.foldl
    (fun d s =>
      match d.seatRow flightID s with
      | some _ =>
          setSeatRow d flightID s { status := SeatStatus.booked, orderID := some orderID }
      | none => d) db
  if rowsAffected = seatIDs.length then (db', none)
  else (db', some "booked row count mismatch")

/-- `FlightRepo.UpdateAvailableSeats`:
`UPDATE flights SET available_seats = available_seats + $1 WHERE id = $2 AND available_seats + $1 >= 0`;
zero affected rows (missing flight or guard failure) is
`domain.ErrInsufficientSeats`. -/
def updateAvailableSeats (db : FlightsDb) (flightID : String) (delta : Int) :
    FlightsDb × Option String :=
  match db.availableSeats flightID with
  | some n =>
      if n + delta ≥ 0 then
        ({ db with
            availableSeats := fun f =>
              if f = flightID then some (n + delta) else db.availableSeats f },
          none)
      else (db, some "insufficient seats")
  | none => (db, some "insufficient seats")

/-! ## ConfirmOrder activity (activities, part "booking" file) -/

/-- The combined persistent state the `ConfirmOrder` activity touches. -/
structure ConfirmState where
  orders : OrderStore
  flights : FlightsDb
  locks : LockStore

/-- `BookingActivities.ConfirmOrder`: confirm the order row, then book the
seat rows, then decrement the available-seats counter, then release the lock
entries (lock errors ignored).  Each repository call is a separate
single-statement operation on the shared pool — there is no enclosing
transaction, so the state reached before a failing step persists. -/
def confirmOrderActivity (s : ConfirmState) (orderID flightID : String)
    (seats : List String) (now : Int) : ConfirmState × Option String :=
  match confirmRow s.orders orderID now with
  | Except.error _ => (s, some "confirm order failed")
  | Except.ok orders' =>
      let bookRes := bookSeats s.flights flightID seats orderID
      match bookRes.2 with
      | some e => ({ s with orders := orders', flights := bookRes.1 }, some e)
      | none =>
          let availRes := updateAvailableSeats bookRes.1 flightID (-(seats.length : Int))
          match availRes.2 with
          | some e => ({ s with orders := orders', flights := availRes.1 }, some e)
          | none =>
              let locks' := releaseLocks s.locks flightID seats orderID
              ({ orders := orders', flights := availRes.1, locks := locks' }, none)

/-! ## Concrete fixtures used by the closed theorems -/

/-- The empty lock store. -/
def emptyLockStore : LockStore := fun _ => none

/-- A lock store in which seat `2B` of flight `f1` is locked by order `o2`. -/
def foreignLockStore : LockStore :=
  lockWrite emptyLockStore (seatLockKey "f1" "2B") ⟨"o2", 5⟩

/-- An order store holding a single `CONFIRMED` order `o1`. -/
def confirmedOrderStore : OrderStore :=
  orderWrite (fun _ => none) "o1"
    { id := "o1", status := OrderStatus.confirmed, seats := ["1A"],
      expiresAt := none, confirmedAt := some 100, failureReason := none }

/-- A persisted row of a closed (failed) order whose `expires_at` still lies
600 seconds in the future. -/
def closedRowFutureExpiry : OrderRow :=
  { id := "o9", status := OrderStatus.failed, seats := ["1A"],
    expiresAt := some 600, confirmedAt := none,
    failureReason := some "payment failed" }

/-! ## Booking workflow (workflows, the manual-payment-retry revision)

The workflow is embedded as an executable function of its input, its start
time and an environment that supplies what the engine and the activities
would: whether each activity call succeeds, the sequence of signal arrivals
in the hold phase, and the outcome of each payment validation attempt.
Engine time is in seconds; each hold event carries the seconds elapsed since
the previous scheduling point. -/

/-- The 15-minute hold (`15 * time.Minute`) in seconds. -/
def holdDuration : Nat := 900

/-- Activity invocations recorded by the workflow model, with the arguments
the claims talk about.  `releaseSeats` records whether it was scheduled on
the disconnected (non-cancellable) compensation context. -/
inductive ActCall
  | createOrder
  | reserveSeats
  | updateSeatSelection (oldSeats newSeats : List String)
  | updateOrderSeats (seats : List String) (expiresAt : Nat)
  | updateOrderStatus (status : OrderStatus)
  | expireOrder
  | failOrder (reason : String)
  | validatePaymentCall (attempt : Nat)
  | confirmOrderCall (seats : List String)
  | releaseSeats (seats : List String) (disconnected : Bool)
  | sleepCall (seconds : Nat)
deriving DecidableEq, Repr

/-- The in-memory `bookingState` of the workflow, extended with the current
engine time and the trace of executed activities. -/
structure BState where
  orderID : String
  flightID : String
  seats : List String
  status : OrderStatus
  expiresAt : Nat
  now : Nat
  paymentAttempts : Nat
  lastError : String
  calls : List ActCall
deriving DecidableEq, Repr

/-- One event observed by the hold-phase `Selector`.  `dt` is engine time
elapsed since the previous event; for `updateSeats`, `updateResult` is the
result of the `UpdateSeatSelection` activity (`none` = success, `some msg` =
failure with that message). -/
inductive HoldEvent
  | updateSeats (seats : List String) (dt : Nat) (updateResult : Option String)
  | proceedToPayment (paymentCode : String) (dt : Nat)
  | cancelBooking (dt : Nat)
  | timerFires
deriving DecidableEq, Repr

/-- Advance engine time. -/
def advanceNow (st : BState) (dt : Nat) : BState :=
  { st with now := st.now + dt }

/-- The body of the `update-seats` signal handler: run `UpdateSeatSelection`;
on success install the new seats, reset `expires_at` to now plus the hold
duration and call `UpdateOrderSeats`; on failure record `lastError` and keep
seats and deadline. -/
def applySeatUpdate (st : BState) (payload : List String)
    (updateResult : Option String) : BState :=
  match updateResult with
  | some msg =>
      { st with
          lastError := msg,
          calls := st.calls ++ [ActCall.updateSeatSelection st.seats payload] }
  | none =>
      let newExpiresAt := st.now + holdDuration
      { st with
          seats := payload,
          expiresAt := newExpiresAt,
          calls := st.calls ++ [ActCall.updateSeatSelection st.seats payload,
                                ActCall.updateOrderSeats payload newExpiresAt] }

/-- The state transition performed by one hold-phase event (the state in
which the loop continues, or in which it exits for the terminal events). -/
def holdNext (st : BState) : HoldEvent → BState
  | HoldEvent.updateSeats payload dt r => applySeatUpdate (advanceNow st dt) payload r
  | HoldEvent.proceedToPayment _ dt => advanceNow st dt
  | HoldEvent.cancelBooking dt => advanceNow st dt
  | HoldEvent.timerFires => { st with now := st.expiresAt }

/-- The expiry exit: set status `EXPIRED`, record the reason and run the
`ExpireOrder` activity. -/
def expireExit (st : BState) : BState :=
  { st with
      status := OrderStatus.expired,
      lastError := "seat reservation expired",
      calls := st.calls ++ [ActCall.expireOrder] }

/-- How the hold phase ended. `waiting` means the event list was exhausted
with the workflow still blocked in the select loop (no exit). -/
inductive HoldOutcome
  | expired (st : BState)
  | canceled (st : BState)
  | payment (paymentCode : String) (st : BState)
  | waiting (st : BState)
deriving Repr

/-- The hold-phase wait loop: at the top of each iteration the remaining
timer duration is checked (`expiresAt - now <= 0` exits through the expiry
path); otherwise the next ready event is handled. A firing hold timer also
exits through the expiry path. -/
def runHold : BState → List HoldEvent → HoldOutcome
  | st, evs =>
    if st.expiresAt ≤ st.now then HoldOutcome.expired (expireExit st)
    else
      match evs with
      | [] => HoldOutcome.waiting st
      | HoldEvent.updateSeats payload dt r :: rest =>
          runHold (holdNext st (HoldEvent.updateSeats payload dt r)) rest
      | HoldEvent.proceedToPayment code dt :: _ =>
          HoldOutcome.payment code (holdNext st (HoldEvent.proceedToPayment code dt))
      | HoldEvent.cancelBooking dt :: _ =>
          HoldOutcome.canceled (holdNext st (HoldEvent.cancelBooking dt))
      | HoldEvent.timerFires :: _ =>
          HoldOutcome.expired (expireExit (holdNext st HoldEvent.timerFires))

/-- Result of one `ValidatePayment` attempt as seen by the workflow: success,
or an error with an optional application-error type. -/
inductive AttemptResult
  | ok (message : String)
  | appError (errType : Option String) (message : String)
deriving DecidableEq, Repr

/-- Message carried by an attempt result (`err.Error()` /
`appErr.Message()`). -/
def attemptMessage : AttemptResult → String
  | AttemptResult.ok m => m
  | AttemptResult.appError _ m => m

/-- `maxPaymentAttempts` constant of the workflow. -/
def maxPaymentAttempts : Nat := 3

/-- State after the payment retry loop together with the loop's
`lastPaymentErr` variable. -/
structure PayLoopOut where
  st : BState
  lastPaymentErr : Option AttemptResult
deriving Repr

/-- The manual payment retry loop of the workflow, ported statement by
statement.  `remaining` counts loop iterations still permitted (starting at
`maxPaymentAttempts`), `attempt` is the 1-based attempt counter.  On success
the loop breaks — without clearing `lastPaymentErr`.  A non-retryable typed
error breaks with `lastError` set; a retryable error before the final
attempt records `lastError`, sleeps `attempt` seconds and retries; the final
attempt records the after-N-attempts message. -/
def paymentLoop (outcome : Nat → AttemptResult) :
    Nat → Nat → BState → Option AttemptResult → PayLoopOut
  | 0, _, st, last => ⟨st, last⟩
  | remaining + 1, attempt, st, last =>
    let st := { st with
        paymentAttempts := attempt,
        calls := st.calls ++ [ActCall.validatePaymentCall attempt] }
    match outcome attempt with
    | AttemptResult.ok _ => ⟨st, last⟩
    | AttemptResult.appError t msg =>
        let last := some (AttemptResult.appError t msg)
        if (t.map (fun ty => nonRetryableErrorTypes.contains ty)).getD false then
          ⟨{ st with lastError := "payment failed: " ++ msg }, last⟩
        else if attempt < maxPaymentAttempts then
          let st := { st with
              lastError := "payment failed (attempt " ++ toString attempt
                ++ " of " ++ toString maxPaymentAttempts ++ "): " ++ msg,
              calls := st.calls ++ [ActCall.sleepCall attempt] }
          paymentLoop outcome remaining (attempt + 1) st last
        else
          ⟨{ st with
              lastError := "payment failed after " ++ toString maxPaymentAttempts
                ++ " attempts: " ++ msg }, last⟩

/-- Phase 3 of the workflow: set `PAYMENT_PROCESSING`, run `UpdateOrderStatus`
and enter the retry loop. -/
def runPaymentPhase (outcome : Nat → AttemptResult) (st : BState) : PayLoopOut :=
  let st := { st with
      status := OrderStatus.paymentProcessing,
      calls := st.calls ++ [ActCall.updateOrderStatus OrderStatus.paymentProcessing] }
  paymentLoop outcome maxPaymentAttempts 1 st none

/-- `BookingWorkflowInput`. -/
structure BookingWorkflowInput where
  orderID : String
  flightID : String
  seats : List String
deriving DecidableEq, Repr

/-- Environment of one workflow execution: whether registering the query
handler and each order/seat activity succeeds, the hold-phase events, the
outcome of each payment attempt, and whether `ConfirmOrder` succeeds. -/
structure WorkflowEnv where
  queryHandlerOk : Bool
  createOrderOk : Bool
  reserveSeatsOk : Bool
  holdEvents : List HoldEvent
  paymentOutcome : Nat → AttemptResult
  confirmOk : Bool

/-- A completed workflow execution: final state fields, whether a non-nil
error was returned, and whether the deferred compensation ran. -/
structure WorkflowExit where
  status : OrderStatus
  errReturned : Bool
  seats : List String
  paymentAttempts : Nat
  lastError : String
  calls : List ActCall
  compensated : Bool
deriving Repr

/-- The deferred compensation block evaluated on exit: when a non-nil error
is being returned or the final status is `EXPIRED` or `FAILED`, run
`ReleaseSeats` on the final seat set on a disconnected activity context. -/
def finishWorkflow (st : BState) (errReturned : Bool) : WorkflowExit :=
  if errReturned || st.status == OrderStatus.expired
      || st.status == OrderStatus.failed then
    { status := st.status, errReturned := errReturned, seats := st.seats,
      paymentAttempts := st.paymentAttempts, lastError := st.lastError,
      calls := st.calls ++ [ActCall.releaseSeats st.seats true],
      compensated := true }
  else
    { status := st.status, errReturned := errReturned, seats := st.seats,
      paymentAttempts := st.paymentAttempts, lastError := st.lastError,
      calls := st.calls, compensated := false }

/-- The initial `bookingState`. -/
def initialState (input : BookingWorkflowInput) (startNow : Nat) : BState :=
  { orderID := input.orderID, flightID := input.flightID, seats := input.seats,
    status := OrderStatus.created, expiresAt := 0, now := startNow,
    paymentAttempts := 0, lastError := "", calls := [] }

/-- `BookingWorkflow`, ported phase by phase.  Returns `none` when the hold
phase runs out of supplied events while still waiting (the workflow has not
exited).  Note that the compensation `defer` is installed after the
`SetQueryHandler` call, so the exit taken when that registration fails does
not evaluate the compensation block. -/
def runBookingWorkflow (input : BookingWorkflowInput) (startNow : Nat)
    (env : WorkflowEnv) : Option WorkflowExit :=
  let st := initialState input startNow
  if env.queryHandlerOk then
    let st := { st with
        expiresAt := st.now + holdDuration,
        calls := st.calls ++ [ActCall.createOrder] }
    if env.createOrderOk then
      let st := { st with
          status := OrderStatus.seatsReserved,
          calls := st.calls ++ [ActCall.reserveSeats] }
      if env.reserveSeatsOk then
        match runHold st env.holdEvents with
        | HoldOutcome.waiting _ => none
        | HoldOutcome.expired st => some (finishWorkflow st true)
        | HoldOutcome.canceled st =>
            let st := { st with
                status := OrderStatus.failed,
                lastError := "booking canceled by user" }
            let st := { st with calls := st.calls ++ [ActCall.failOrder st.lastError] }
            some (finishWorkflow st true)
        | HoldOutcome.payment _ st =>
            let out := runPaymentPhase env.paymentOutcome st
            match out.lastPaymentErr with
            | some e =>
                let finalReason :=
                  if out.st.lastError = "" then
                    "payment failed after " ++ toString out.st.paymentAttempts
                      ++ " attempts: " ++ attemptMessage e
                  else out.st.lastError
                let st := { out.st with
                    status := OrderStatus.failed,
                    lastError := finalReason,
                    calls := out.st.calls ++ [ActCall.failOrder finalReason] }
                some (finishWorkflow st true)
            | none =>
                let st := { out.st with
                    status := OrderStatus.confirmed,
                    calls := out.st.calls ++ [ActCall.confirmOrderCall out.st.seats] }
                if env.confirmOk then
                  some (finishWorkflow st false)
                else
                  let st := { st with
                      status := OrderStatus.failed,
                      lastError := "confirmation failed: confirm order error" }
                  let st := { st with calls := st.calls ++ [ActCall.failOrder st.lastError] }
                  some (finishWorkflow st true)
      else
        some (finishWorkflow
          { st with lastError := "reserve seats failed", status := OrderStatus.failed }
          true)
    else
      some (finishWorkflow
        { st with lastError := "create order failed", status := OrderStatus.failed }
        true)
  else
    some { status := st.status, errReturned := true, seats := st.seats,
           paymentAttempts := st.paymentAttempts, lastError := st.lastError,
           calls := st.calls, compensated := false }

/-- Invariant tying the moving deadline to engine time: the deadline never
lies more than one hold duration in the future.  Established when the
deadline is first set and preserved by every hold-phase event. -/
def expiryInvariant (st : BState) : Prop :=
  st.expiresAt ≤ st.now + holdDuration

/-- Whether a hold event is a successfully applied seat change. -/
def isSuccessfulSeatUpdate : HoldEvent → Bool
  | HoldEvent.updateSeats _ _ none => true
  | _ => false

/-! ## Workflow fixtures for the closed theorems -/

/-- Payment outcomes in which the first two attempts fail with the retryable
gateway error and the third succeeds (the simulator configuration of the
payment-retry scenario). -/
def retryThenSuccess : Nat → AttemptResult :=
  fun attempt =>
    if attempt ≤ 2 then
      AttemptResult.appError none "payment validation failed: temporary gateway error"
    else AttemptResult.ok "Payment validated successfully"

/-- Environment of the payment-retry scenario: payment signal after one
second, first two validation attempts fail retryably, third succeeds,
everything else healthy. -/
def envRetryThenSuccess : WorkflowEnv :=
  { queryHandlerOk := true, createOrderOk := true, reserveSeatsOk := true,
    holdEvents := [HoldEvent.proceedToPayment "12345" 1],
    paymentOutcome := retryThenSuccess, confirmOk := true }

/-- Environment in which registering the status query handler fails. -/
def envQueryHandlerFails : WorkflowEnv :=
  { queryHandlerOk := false, createOrderOk := true, reserveSeatsOk := true,
    holdEvents := [], paymentOutcome := fun _ => AttemptResult.ok "OK",
    confirmOk := true }

/-- Environment of the user-cancel path (used to witness the compensation
theorem). -/
def envCancel : WorkflowEnv :=
  { queryHandlerOk := true, createOrderOk := true, reserveSeatsOk := true,
    holdEvents := [HoldEvent.cancelBooking 1],
    paymentOutcome := fun _ => AttemptResult.ok "OK", confirmOk := true }

/-- The exit value of the user-cancel run. -/
def cancelExit : WorkflowExit :=
  { status := OrderStatus.failed, errReturned := true, seats := ["4A"],
    paymentAttempts := 0, lastError := "booking canceled by user",
    calls := [ActCall.createOrder, ActCall.reserveSeats,
              ActCall.failOrder "booking canceled by user",
              ActCall.releaseSeats ["4A"] true],
    compensated := true }

/-- A flights database in which seat `12A` of flight `f1` is `available` and
owned by nobody, with one seat left on the counter. -/
def dbAvailableSeat : FlightsDb :=
  { seatRow := fun f s =>
      if f = "f1" ∧ s = "12A" then some ⟨SeatStatus.available, none⟩ else none,
    availableSeats := fun f => if f = "f1" then some 1 else none }

/-- A flights database in which seat `12A` of flight `f1` is `reserved` by
order `o1` but the available-seats counter is already zero. -/
def dbReservedNoCounter : FlightsDb :=
  { seatRow := fun f s =>
      if f = "f1" ∧ s = "12A" then some ⟨SeatStatus.reserved, some "o1"⟩ else none,
    availableSeats := fun f => if f = "f1" then some 0 else none }

/-- An order store holding order `o1` in `PAYMENT_PROCESSING`. -/
def processingOrderStore : OrderStore :=
  fun id =>
    if id = "o1" then
      some { id := "o1", status := OrderStatus.paymentProcessing, seats := ["12A"],
             expiresAt := none, confirmedAt := none, failureReason := none }
    else none

/-- The `ConfirmOrder` activity run against `dbReservedNoCounter`: booking
the seat rows succeeds, the counter decrement then fails. -/
def confirmRunNoCounter : ConfirmState × Option String :=
  confirmOrderActivity ⟨processingOrderStore, dbReservedNoCounter, emptyLockStore⟩
    "o1" "f1" ["12A"] 50

/-- A hold-phase state as it stands right after the initial reservation of
order `o3` (deadline one hold duration after start). -/
def holdStateAfterReserve : BState :=
  { orderID := "o3", flightID := "f1", seats := ["1A", "1B"],
    status := OrderStatus.seatsReserved, expiresAt := 900, now := 0,
    paymentAttempts := 0, lastError := "", calls := [] }

/-! # Theorems -/

/-! ## C5 — payment simulator classification -/

/-- Claim C5: `ValidatePayment` returns a non-retryable
`INVALID_PAYMENT_CODE` error for every payment code that is not exactly five
decimal digits (in particular for lengths 4 and 6), a non-retryable
`PAYMENT_DECLINED` error for `00000`, and instant success (no processing
delay) for `99999`. -/
theorem validatePayment_classification (code : String) (pt : Nat) (gf : Bool)
    (h : paymentCodeMatches code = false) :
    validatePayment code pt gf =
      ⟨0, PaymentOutcome.appFailure (some errTypeInvalidPaymentCode)
            "payment code must be 5 digits"⟩
    ∧ isNonRetryableOutcome (validatePayment code pt gf).outcome = true
    ∧ paymentCodeMatches "1234" = false
    ∧ paymentCodeMatches "123456" = false
    ∧ validatePayment "00000" pt gf =
        ⟨0, PaymentOutcome.appFailure (some errTypePaymentDeclined)
              "payment declined: insufficient funds"⟩
    ∧ isNonRetryableOutcome (validatePayment "00000" pt gf).outcome = true
    ∧ validatePayment "99999" pt gf =
        ⟨0, PaymentOutcome.success "Payment validated (test mode)"⟩
    ∧ (validatePayment "99999" pt gf).delaySeconds = 0 := by
  refine ⟨?_, ?_, by decide, by decide, rfl, rfl, rfl, rfl⟩
  · simp [validatePayment, h]
  · simp [validatePayment, h, isNonRetryableOutcome, nonRetryableErrorTypes]

/-- Witness for C5 at the length-4 code `1234`. -/
theorem validatePayment_classification_witness :
    validatePayment "1234" 3 false =
      ⟨0, PaymentOutcome.appFailure (some errTypeInvalidPaymentCode)
            "payment code must be 5 digits"⟩
    ∧ isNonRetryableOutcome (validatePayment "1234" 3 false).outcome = true := by
  have h := validatePayment_classification "1234" 3 false (by decide)
  exact ⟨h.1, h.2.1⟩

/-! ## C10 — totality of the payment-signal masking slice -/

/-- Claim C10 (counterexample): the payment-signal handler logs
`PaymentCode[:2]`, which is out of bounds — a panic — for the length-1 code
`"1"`, even though that code passes the HTTP handler's only direct guard
(non-emptiness).  So the handler is not total on all codes of length at
least 1, contrary to the claim. -/
theorem maskPaymentCode_short_code_counterexample :
    submitPaymentGuard "1" = true
    ∧ 1 ≤ ("1" : String).length
    ∧ maskPaymentCode "1" = none := by
  refine ⟨rfl, by decide, rfl⟩

/-- Claim C10 (amended): the masking slice `PaymentCode[:2]` is in bounds
exactly for codes of length at least 2; in particular every code accepted by
the service layer's five-digit validation is masked without a panic. -/
theorem maskPaymentCode_total_iff (code : String) :
    ((maskPaymentCode code).isSome ↔ 2 ≤ code.length)
    ∧ (isValidPaymentCode code = true → (maskPaymentCode code).isSome = true) := by
  constructor
  · unfold maskPaymentCode goStringSliceTo
    by_cases h : 2 ≤ code.length <;> simp [h]
  · intro h
    have hlen : code.length = 5 := by
      unfold isValidPaymentCode paymentCodeMatches at h
      simp only [Bool.and_eq_true, beq_iff_eq] at h
      exact h.1
    unfold maskPaymentCode goStringSliceTo
    simp [hlen]

/-- Witness for C10 at the valid code `12345`. -/
theorem maskPaymentCode_total_iff_witness :
    (maskPaymentCode "12345").isSome = true :=
  (maskPaymentCode_total_iff "12345").2 (by decide)

/-! ## C7 — status query fallback to the order store -/

/-- Claim C7 (counterexample): for a closed order whose persisted
`expires_at` lies 600 seconds in the future, the database fallback of
`GetOrderStatus` reports `timerRemaining = 600`, not `0` as claimed. -/
theorem getOrderStatus_fallback_timer_counterexample :
    getOrderStatus none (some closedRowFutureExpiry) 0 =
      Except.ok { orderID := "o9", status := OrderStatus.failed, seats := ["1A"],
                  timerRemaining := 600, paymentAttempts := 0,
                  lastError := "payment failed" }
    ∧ (600 : Int) ≠ 0 := by
  refine ⟨rfl, by decide⟩

/-- Claim C7 (amended): when the workflow query fails and the row exists,
`GetOrderStatus` returns the persisted row's status, seats and failure
reason with `payment_attempts = 0` — but `timer_remaining` is recomputed
from the persisted `expires_at` as `max 0 (expires_at - now)` (0 only when
`expires_at` is absent or already past), not unconditionally 0. -/
theorem getOrderStatus_fallback_spec (o : OrderRow) (now : Int) :
    getOrderStatus none (some o) now = Except.ok (getOrderStatusFallback o now)
    ∧ (getOrderStatusFallback o now).orderID = o.id
    ∧ (getOrderStatusFallback o now).status = o.status
    ∧ (getOrderStatusFallback o now).seats = o.seats
    ∧ (getOrderStatusFallback o now).lastError = o.failureReason.getD ""
    ∧ (getOrderStatusFallback o now).paymentAttempts = 0
    ∧ (getOrderStatusFallback o now).timerRemaining
        = (o.expiresAt.map (fun t => max (t - now) 0)).getD 0 := by
  refine ⟨rfl, rfl, rfl, rfl, rfl, rfl, ?_⟩
  unfold getOrderStatusFallback
  cases h : o.expiresAt with
  | none => simp [h]
  | some t =>
      simp only [h, Option.map_some', Option.getD_some]
      split <;> omega

/-! ## C2 — UpdateStatus ignores the order state machine -/

/-- Claim C2 (refutation): `OrderRepo.UpdateStatus` performs an
unconditional `UPDATE ... WHERE id = $2`; it never consults the §4.4 state
machine (`CanTransitionTo`).  On the store holding order `o1` in the
terminal status `CONFIRMED`, requesting the illegal transition to `CREATED`
succeeds and changes the row, and `OrderRepo.Fail` likewise moves the
confirmed order to `FAILED` — both transitions that `canTransitionTo`
forbids from a terminal status. -/
theorem updateStatus_ignores_state_machine :
    canTransitionTo OrderStatus.confirmed OrderStatus.created = false
    ∧ isTerminal OrderStatus.confirmed = true
    ∧ (∃ store, updateStatus confirmedOrderStore "o1" OrderStatus.created
          = Except.ok store
        ∧ (store "o1").map (fun r => r.status) = some OrderStatus.created)
    ∧ (∃ store, failRow confirmedOrderStore "o1" "boom" = Except.ok store
        ∧ (store "o1").map (fun r => r.status) = some OrderStatus.failed) := by
  refine ⟨rfl, rfl, ⟨_, rfl, rfl⟩, ⟨_, rfl, rfl⟩⟩

/-! ## C3 — BookSeats books unconditionally and non-transactionally -/

/-- Claim C3 (refutation).  First conjunct: `FlightRepo.BookSeats` books a
seat row that is currently `available` and reserved for nobody — its
`UPDATE` matches on flight and seat id only, not on `status = reserved` with
the given owner.  Second conjunct: in `ConfirmOrder`, booking the seat rows
and decrementing the flight counter are separate statements, not one
transaction: when the counter decrement fails, the activity reports an
error while the freshly booked seat rows (and the confirmed order row)
persist with the counter unchanged. -/
theorem bookSeats_unconditional_and_nonatomic :
    ((bookSeats dbAvailableSeat "f1" ["12A"] "o1").2 = none
      ∧ (bookSeats dbAvailableSeat "f1" ["12A"] "o1").1.seatRow "f1" "12A"
          = some ⟨SeatStatus.booked, some "o1"⟩)
    ∧ (confirmRunNoCounter.2 = some "insufficient seats"
      ∧ confirmRunNoCounter.1.flights.seatRow "f1" "12A"
          = some ⟨SeatStatus.booked, some "o1"⟩
      ∧ confirmRunNoCounter.1.flights.availableSeats "f1" = some 0
      ∧ (confirmRunNoCounter.1.orders "o1").map (fun r => r.status)
          = some OrderStatus.confirmed) := by
  refine ⟨⟨rfl, rfl⟩, rfl, rfl, rfl, rfl⟩

/-! ## C1 — the payment retry loop fails the order after a late success -/

/-- Claim C1 (refutation): with the simulator configured so that the first
two `ValidatePayment` attempts fail retryably and the third succeeds, the
workflow does retry with 1 s and 2 s backoffs and reaches
`payment_attempts = 3`, but — because `lastPaymentErr` is never cleared when
a later attempt succeeds — it then transitions to `FAILED`, runs `FailOrder`
with the attempt-2 message, and returns the stale error instead of
proceeding to the confirm phase. -/
theorem payment_retry_then_success_ends_failed :
    runBookingWorkflow ⟨"o4", "f1", ["1A"]⟩ 0 envRetryThenSuccess =
      some { status := OrderStatus.failed, errReturned := true, seats := ["1A"],
             paymentAttempts := 3,
             lastError := "payment failed (attempt 2 of 3): payment validation failed: temporary gateway error",
             calls := [ActCall.createOrder, ActCall.reserveSeats,
                       ActCall.updateOrderStatus OrderStatus.paymentProcessing,
                       ActCall.validatePaymentCall 1, ActCall.sleepCall 1,
                       ActCall.validatePaymentCall 2, ActCall.sleepCall 2,
                       ActCall.validatePaymentCall 3,
                       ActCall.failOrder "payment failed (attempt 2 of 3): payment validation failed: temporary gateway error",
                       ActCall.releaseSeats ["1A"] true],
             compensated := true }
    ∧ OrderStatus.failed ≠ OrderStatus.confirmed := by
  refine ⟨rfl, by decide⟩
/-! ## C8 — LockSeats acquisition semantics -/

/-- After the write pass, every key holds either its old entry or the new
one. -/
theorem lockWrite_fold_val (flightID orderID : String) (ttl : Nat) :
    ∀ (seatIDs : List String) (store : LockStore) (k : String),
      (seatIDs.foldl
          (fun st s => lockWrite st (seatLockKey flightID s) ⟨orderID, ttl⟩)
          store) k = store k
      ∨ (seatIDs.foldl
          (fun st s => lockWrite st (seatLockKey flightID s) ⟨orderID, ttl⟩)
          store) k = some ⟨orderID, ttl⟩ := by
  intro seatIDs
  induction seatIDs with
  | nil => intro store k; left; rfl
  | cons a tl ih =>
      intro store k
      rw [List.foldl_cons]
      rcases ih (lockWrite store (seatLockKey flightID a) ⟨orderID, ttl⟩) k with h | h
      · rw [h]
        unfold lockWrite
        by_cases hk : k = seatLockKey flightID a
        · right; simp [hk]
        · left; simp [hk]
      · right; exact h

/-- The write pass sets every requested key to the new entry. -/
theorem lockWrite_fold_mem (flightID orderID : String) (ttl : Nat) :
    ∀ (seatIDs : List String) (store : LockStore) (s : String), s ∈ seatIDs →
      (seatIDs.foldl
          (fun st x => lockWrite st (seatLockKey flightID x) ⟨orderID, ttl⟩)
          store) (seatLockKey flightID s) = some ⟨orderID, ttl⟩ := by
  intro seatIDs
  induction seatIDs with
  | nil => intro store s hs; cases hs
  | cons a tl ih =>
      intro store s hs
      rw [List.foldl_cons]
      rcases List.mem_cons.mp hs with rfl | hmem
      · rcases lockWrite_fold_val flightID orderID ttl tl
            (lockWrite store (seatLockKey flightID s) ⟨orderID, ttl⟩)
            (seatLockKey flightID s) with h | h
        · rw [h]; unfold lockWrite; simp
        · rw [h]
      · exact ih _ s hmem

/-- The write pass leaves every other key untouched. -/
theorem lockWrite_fold_other (flightID orderID : String) (ttl : Nat) :
    ∀ (seatIDs : List String) (store : LockStore) (k : String),
      (∀ s ∈ seatIDs, k ≠ seatLockKey flightID s) →
      (seatIDs.foldl
          (fun st x => lockWrite st (seatLockKey flightID x) ⟨orderID, ttl⟩)
          store) k = store k := by
  intro seatIDs
  induction seatIDs with
  | nil => intro store k _; rfl
  | cons a tl ih =>
      intro store k hk
      rw [List.foldl_cons]
      rw [ih _ k (fun s hs => hk s (List.mem_cons_of_mem a hs))]
      unfold lockWrite
      simp [hk a (List.mem_cons_self a tl)]

/-- Claim C8: `LockSeats` fails exactly when some requested seat currently
has a lock entry owned by a different order; otherwise it succeeds and
writes all requested entries for the order with the given TTL, leaving all
other keys unchanged.  In particular re-locking seats already held by the
same order succeeds (the failure condition excludes same-owner entries). -/
theorem lockSeats_spec (store : LockStore) (flightID orderID : String)
    (seatIDs : List String) (ttl : Nat) :
    ((∃ e, lockSeats store flightID seatIDs orderID ttl = Except.error e) ↔
      ∃ s ∈ seatIDs, ∃ en, store (seatLockKey flightID s) = some en
        ∧ en.owner ≠ orderID)
    ∧ (∀ st', lockSeats store flightID seatIDs orderID ttl = Except.ok st' →
        (∀ s ∈ seatIDs, st' (seatLockKey flightID s) = some ⟨orderID, ttl⟩)
        ∧ (∀ k, (∀ s ∈ seatIDs, k ≠ seatLockKey flightID s) → st' k = store k)) := by
  have hforeign : ∀ s, (foreignOwner store flightID s orderID).isSome = true ↔
      ∃ en, store (seatLockKey flightID s) = some en ∧ en.owner ≠ orderID := by
    intro s
    unfold foreignOwner
    cases hk : store (seatLockKey flightID s) with
    | none => simp
    | some en =>
        by_cases ho : en.owner = orderID
        · simp [ho]
        · simp [ho]
  constructor
  · cases hfind : seatIDs.find?
        (fun s => (foreignOwner store flightID s orderID).isSome) with
    | some s =>
        constructor
        · intro _
          refine ⟨s, List.mem_of_find?_eq_some hfind, ?_⟩
          have hp : (foreignOwner store flightID s orderID).isSome = true := by
            simpa using List.find?_some hfind
          exact (hforeign s).mp hp
        · intro _
          exact ⟨_, by unfold lockSeats; rw [hfind]⟩
    | none =>
        constructor
        · rintro ⟨e, he⟩
          unfold lockSeats at he
          rw [hfind] at he
          exact Except.noConfusion he
        · rintro ⟨s, hs, en, hen, hne⟩
          have hnone := List.find?_eq_none.mp hfind s hs
          simp only [Bool.not_eq_true] at hnone
          have : (foreignOwner store flightID s orderID).isSome = true :=
            (hforeign s).mpr ⟨en, hen, hne⟩
          rw [hnone] at this
          exact Bool.noConfusion this
  · intro st' h
    cases hfind : seatIDs.find?
        (fun s => (foreignOwner store flightID s orderID).isSome) with
    | some s =>
        unfold lockSeats at h
        rw [hfind] at h
        exact Except.noConfusion h
    | none =>
        unfold lockSeats at h
        rw [hfind] at h
        have hst : st' = seatIDs.foldl
            (fun st s => lockWrite st (seatLockKey flightID s) ⟨orderID, ttl⟩)
            store := by
          injection h with h
          exact h.symm
        subst hst
        exact ⟨fun s hs => lockWrite_fold_mem flightID orderID ttl seatIDs store s hs,
               fun k hk => lockWrite_fold_other flightID orderID ttl seatIDs store k hk⟩

/-- Witness for C8: on the empty store, locking `1A` and `1B` for `o1`
succeeds and both entries carry owner `o1` with the requested TTL, and on a
store whose only entry for `2B` is already owned by `o2`, re-locking `2B`
for `o2` does not fail. -/
theorem lockSeats_spec_witness :
    (∀ st', lockSeats emptyLockStore "f1" ["1A", "1B"] "o1" 960 = Except.ok st' →
      st' (seatLockKey "f1" "1A") = some ⟨"o1", 960⟩
      ∧ st' (seatLockKey "f1" "1B") = some ⟨"o1", 960⟩)
    ∧ ¬ ∃ e, lockSeats foreignLockStore "f1" ["2B"] "o2" 960 = Except.error e := by
  constructor
  · intro st' h
    have hspec := (lockSeats_spec emptyLockStore "f1" "o1" ["1A", "1B"] 960).2 st' h
    exact ⟨hspec.1 "1A" (by simp), hspec.1 "1B" (by simp)⟩
  · intro he
    have hspec := (lockSeats_spec foreignLockStore "f1" "o2" ["2B"] 960).1.mp he
    rcases hspec with ⟨s, hs, en, hen, hne⟩
    simp only [List.mem_singleton] at hs
    subst hs
    have hv : en = ⟨"o2", 5⟩ := by
      unfold foreignLockStore lockWrite emptyLockStore at hen
      simp at hen
      exact hen.symm
    subst hv
    exact hne rfl

/-! ## C9 — ReleaseSeats compare-and-delete is idempotent -/

/-- Equation for `releaseLock1` on a missing key. -/
theorem releaseLock1_none (store : LockStore) (k0 orderID : String)
    (h0 : store k0 = none) : releaseLock1 store k0 orderID = store := by
  unfold releaseLock1
  rw [h0]

/-- Equation for `releaseLock1` on a key owned by the calling order. -/
theorem releaseLock1_owned (store : LockStore) (k0 orderID : String)
    (e : LockEntry) (h0 : store k0 = some e) (ho : e.owner = orderID) :
    releaseLock1 store k0 orderID = lockDelete store k0 := by
  unfold releaseLock1
  rw [h0]
  exact if_pos ho

/-- Equation for `releaseLock1` on a foreign-owned key. -/
theorem releaseLock1_notOwned (store : LockStore) (k0 orderID : String)
    (e : LockEntry) (h0 : store k0 = some e) (ho : e.owner ≠ orderID) :
    releaseLock1 store k0 orderID = store := by
  unfold releaseLock1
  rw [h0]
  exact if_neg ho

/-- One compare-and-delete step either keeps a key's entry or deletes it. -/
theorem releaseLock1_val (store : LockStore) (k0 orderID k : String) :
    releaseLock1 store k0 orderID k = store k
    ∨ releaseLock1 store k0 orderID k = none := by
  cases h0 : store k0 with
  | none => left; rw [releaseLock1_none store k0 orderID h0]
  | some e =>
      by_cases ho : e.owner = orderID
      · rw [releaseLock1_owned store k0 orderID e h0 ho]
        unfold lockDelete
        by_cases hk : k = k0
        · right; simp [hk]
        · left; simp [hk]
      · left; rw [releaseLock1_notOwned store k0 orderID e h0 ho]

/-- One compare-and-delete step never touches an entry owned by a different
order. -/
theorem releaseLock1_foreign (store : LockStore) (k0 orderID k : String)
    (en : LockEntry) (h : store k = some en) (hne : en.owner ≠ orderID) :
    releaseLock1 store k0 orderID k = some en := by
  cases h0 : store k0 with
  | none => rw [releaseLock1_none store k0 orderID h0]; exact h
  | some e =>
      by_cases ho : e.owner = orderID
      · rw [releaseLock1_owned store k0 orderID e h0 ho]
        unfold lockDelete
        by_cases hk : k = k0
        · subst hk
          rw [h] at h0
          injection h0 with h0
          rw [← h0] at ho
          exact absurd ho hne
        · simp [hk, h]
      · rw [releaseLock1_notOwned store k0 orderID e h0 ho]; exact h

/-- One compare-and-delete step is the identity when the key is absent or
foreign-owned. -/
theorem releaseLock1_noop (store : LockStore) (k0 orderID : String)
    (h : ∀ en, store k0 = some en → en.owner ≠ orderID) :
    releaseLock1 store k0 orderID = store := by
  unfold releaseLock1
  split
  next e heq => rw [if_neg (h e heq)]
  next heq => rfl

/-- `ReleaseLocks` either keeps a key's entry or deletes it. -/
theorem releaseLocks_val (flightID orderID : String) :
    ∀ (seatIDs : List String) (store : LockStore) (k : String),
      releaseLocks store flightID seatIDs orderID k = store k
      ∨ releaseLocks store flightID seatIDs orderID k = none := by
  intro seatIDs
  induction seatIDs with
  | nil => intro store k; left; rfl
  | cons a tl ih =>
      intro store k
      unfold releaseLocks at ih ⊢
      rw [List.foldl_cons]
      rcases ih (releaseLock1 store (seatLockKey flightID a) orderID) k with h | h
      · rw [h]
        exact releaseLock1_val store (seatLockKey flightID a) orderID k
      · right; exact h

/-- `ReleaseLocks` never touches an entry owned by a different order. -/
theorem releaseLocks_foreign (flightID orderID : String) :
    ∀ (seatIDs : List String) (store : LockStore) (k : String) (en : LockEntry),
      store k = some en → en.owner ≠ orderID →
      releaseLocks store flightID seatIDs orderID k = some en := by
  intro seatIDs
  induction seatIDs with
  | nil => intro store k en h _; exact h
  | cons a tl ih =>
      intro store k en h hne
      unfold releaseLocks at ih ⊢
      rw [List.foldl_cons]
      exact ih (releaseLock1 store (seatLockKey flightID a) orderID) k en
        (releaseLock1_foreign store (seatLockKey flightID a) orderID k en h hne) hne

/-- `ReleaseLocks` is the identity when every requested key is absent or
foreign-owned. -/
theorem releaseLocks_noop (flightID orderID : String) :
    ∀ (seatIDs : List String) (store : LockStore),
      (∀ s ∈ seatIDs, ∀ en, store (seatLockKey flightID s) = some en →
        en.owner ≠ orderID) →
      releaseLocks store flightID seatIDs orderID = store := by
  intro seatIDs
  induction seatIDs with
  | nil => intro store _; rfl
  | cons a tl ih =>
      intro store h
      unfold releaseLocks at ih ⊢
      rw [List.foldl_cons]
      rw [releaseLock1_noop store (seatLockKey flightID a) orderID
        (h a (List.mem_cons_self a tl))]
      exact ih store (fun s hs => h s (List.mem_cons_of_mem a hs))

/-- After one compare-and-delete on a key, that key no longer holds an entry
owned by the calling order. -/
theorem releaseLock1_clears_owned (store : LockStore) (k0 orderID : String) :
    ∀ en, releaseLock1 store k0 orderID k0 = some en → en.owner ≠ orderID := by
  intro en hh
  cases h0 : store k0 with
  | none =>
      rw [releaseLock1_none store k0 orderID h0, h0] at hh
      exact Option.noConfusion hh
  | some e =>
      by_cases ho : e.owner = orderID
      · rw [releaseLock1_owned store k0 orderID e h0 ho] at hh
        unfold lockDelete at hh
        simp at hh
      · rw [releaseLock1_notOwned store k0 orderID e h0 ho, h0] at hh
        injection hh with hh
        rw [hh] at ho
        exact ho

/-- After `ReleaseLocks`, no requested key holds an entry owned by the
calling order. -/
theorem releaseLocks_clears_owned (flightID orderID : String) :
    ∀ (seatIDs : List String) (store : LockStore) (s : String), s ∈ seatIDs →
      ∀ en, releaseLocks store flightID seatIDs orderID (seatLockKey flightID s)
          = some en → en.owner ≠ orderID := by
  intro seatIDs
  induction seatIDs with
  | nil => intro store s hs; cases hs
  | cons a tl ih =>
      intro store s hs en hen
      unfold releaseLocks at ih hen
      rw [List.foldl_cons] at hen
      rcases List.mem_cons.mp hs with rfl | hmem
      · rcases releaseLocks_val flightID orderID tl
            (releaseLock1 store (seatLockKey flightID s) orderID)
            (seatLockKey flightID s) with hv | hv
        · unfold releaseLocks at hv
          rw [hv] at hen
          exact releaseLock1_clears_owned store (seatLockKey flightID s) orderID en hen
        · unfold releaseLocks at hv
          rw [hv] at hen
          exact Option.noConfusion hen
      · exact ih (releaseLock1 store (seatLockKey flightID a) orderID) s hmem en hen

/-- Claim C9: `ReleaseSeats` deletes each lock entry only when its value
equals the calling order — entries are at most deleted, foreign-owned
entries are never modified, missing entries are silent successes — and it is
idempotent: releasing twice leaves the lock store identical to releasing
once. -/
theorem releaseSeats_idempotent (store : LockStore) (flightID orderID : String)
    (seatIDs : List String) :
    releaseLocks (releaseLocks store flightID seatIDs orderID) flightID seatIDs
        orderID
      = releaseLocks store flightID seatIDs orderID
    ∧ (∀ k en, store k = some en → en.owner ≠ orderID →
        releaseLocks store flightID seatIDs orderID k = some en)
    ∧ (∀ k, releaseLocks store flightID seatIDs orderID k = store k
        ∨ releaseLocks store flightID seatIDs orderID k = none) := by
  refine ⟨?_, ?_, ?_⟩
  · exact releaseLocks_noop flightID orderID seatIDs
      (releaseLocks store flightID seatIDs orderID)
      (fun s hs => releaseLocks_clears_owned flightID orderID seatIDs store s hs)
  · intro k en h hne
    exact releaseLocks_foreign flightID orderID seatIDs store k en h hne
  · intro k
    exact releaseLocks_val flightID orderID seatIDs store k

/-- Witness for C9 on a store holding a foreign-owned entry: releasing for
order `o1` leaves the `o2`-owned entry for seat `2B` intact, and a second
release is a no-op. -/
theorem releaseSeats_idempotent_witness :
    releaseLocks (releaseLocks foreignLockStore "f1" ["2B"] "o1") "f1" ["2B"] "o1"
      = releaseLocks foreignLockStore "f1" ["2B"] "o1"
    ∧ releaseLocks foreignLockStore "f1" ["2B"] "o1" (seatLockKey "f1" "2B")
        = some ⟨"o2", 5⟩ := by
  have h := releaseSeats_idempotent foreignLockStore "f1" "o1" ["2B"]
  refine ⟨h.1, h.2.1 (seatLockKey "f1" "2B") ⟨"o2", 5⟩ ?_ (by decide)⟩
  unfold foreignLockStore lockWrite emptyLockStore
  simp
/-! ## C6 — update-seats handler and deadline monotonicity -/

/-- Every hold-phase event preserves the deadline invariant. -/
theorem holdNext_invariant (st : BState) (e : HoldEvent)
    (h : expiryInvariant st) : expiryInvariant (holdNext st e) := by
  cases e with
  | updateSeats p dt r =>
      cases r with
      | none =>
          simp only [holdNext, applySeatUpdate, advanceNow, expiryInvariant] at h ⊢
          omega
      | some m =>
          simp only [holdNext, applySeatUpdate, advanceNow, expiryInvariant] at h ⊢
          omega
  | proceedToPayment c dt =>
      simp only [holdNext, advanceNow, expiryInvariant] at h ⊢
      omega
  | cancelBooking dt =>
      simp only [holdNext, advanceNow, expiryInvariant] at h ⊢
      omega
  | timerFires =>
      simp only [holdNext, expiryInvariant] at h ⊢
      omega

/-- Under the deadline invariant, no hold-phase event decreases the
deadline. -/
theorem holdNext_expiry_mono (st : BState) (e : HoldEvent)
    (h : expiryInvariant st) : st.expiresAt ≤ (holdNext st e).expiresAt := by
  cases e with
  | updateSeats p dt r =>
      cases r with
      | none =>
          simp only [holdNext, applySeatUpdate, advanceNow,
            expiryInvariant] at h ⊢
          omega
      | some m =>
          simp only [holdNext, applySeatUpdate, advanceNow]
          omega
  | proceedToPayment c dt =>
      simp only [holdNext, advanceNow]
      omega
  | cancelBooking dt =>
      simp only [holdNext, advanceNow]
      omega
  | timerFires =>
      simp only [holdNext]
      omega

/-- Deadlines are non-decreasing along the trace of states of any hold-phase
event sequence, starting from any state satisfying the invariant. -/
theorem chain_expiry_scanl (events : List HoldEvent) :
    ∀ st : BState, expiryInvariant st →
      List.Chain' (fun a b => a.expiresAt ≤ b.expiresAt)
        (events.scanl holdNext st) := by
  induction events with
  | nil =>
      intro st _
      rw [List.scanl_nil]
      exact List.chain'_singleton st
  | cons e es ih =>
      intro st h
      rw [List.scanl_cons, List.singleton_append]
      have hc := ih (holdNext st e) (holdNext_invariant st e h)
      cases es with
      | nil =>
          rw [List.scanl_nil]
          exact List.chain'_pair.mpr (holdNext_expiry_mono st e h)
      | cons f fs =>
          rw [List.scanl_cons, List.singleton_append] at hc ⊢
          exact List.chain'_cons.mpr ⟨holdNext_expiry_mono st e h, hc⟩

/-- Claim C6: on an `update-seats` signal, a successful
`UpdateSeatSelection` installs the payload as the current seats, resets the
deadline to arrival time plus the hold duration and calls
`UpdateOrderSeats`; an unsuccessful one records the error and keeps the
previous seats and deadline.  Consequently the deadline is monotonically
non-decreasing along every hold-phase event sequence, and it changes only
on a successfully applied seat change. -/
theorem updateSeats_signal_spec (st : BState) (payload : List String) (dt : Nat)
    (msg : String) (events : List HoldEvent) (h : expiryInvariant st) :
    ((holdNext st (HoldEvent.updateSeats payload dt none)).seats = payload
      ∧ (holdNext st (HoldEvent.updateSeats payload dt none)).expiresAt
          = st.now + dt + holdDuration
      ∧ ActCall.updateOrderSeats payload (st.now + dt + holdDuration)
          ∈ (holdNext st (HoldEvent.updateSeats payload dt none)).calls)
    ∧ ((holdNext st (HoldEvent.updateSeats payload dt (some msg))).seats = st.seats
      ∧ (holdNext st (HoldEvent.updateSeats payload dt (some msg))).expiresAt
          = st.expiresAt
      ∧ (holdNext st (HoldEvent.updateSeats payload dt (some msg))).lastError = msg)
    ∧ List.Chain' (fun a b => a.expiresAt ≤ b.expiresAt)
        (events.scanl holdNext st)
    ∧ (∀ e, (holdNext st e).expiresAt ≠ st.expiresAt →
        isSuccessfulSeatUpdate e = true
        ∧ ∃ p d, e = HoldEvent.updateSeats p d none
            ∧ (holdNext st e).expiresAt = st.now + d + holdDuration) := by
  refine ⟨⟨?_, ?_, ?_⟩, ⟨rfl, rfl, rfl⟩, chain_expiry_scanl events st h, ?_⟩
  · simp [holdNext, applySeatUpdate, advanceNow]
  · simp [holdNext, applySeatUpdate, advanceNow]
  · simp [holdNext, applySeatUpdate, advanceNow]
  · intro e hne
    cases e with
    | updateSeats p d r =>
        cases r with
        | none =>
            refine ⟨rfl, p, d, rfl, ?_⟩
            simp [holdNext, applySeatUpdate, advanceNow]
        | some m =>
            exact absurd rfl hne
    | proceedToPayment c d => exact absurd rfl hne
    | cancelBooking d => exact absurd rfl hne
    | timerFires => exact absurd rfl hne

/-- Witness for C6: right after reservation of order `o3` (deadline 900,
time 0), a successful seat change arriving at 840 s installs seats
`3A`, `3B` and moves the deadline to 1740, and the scanned deadlines along
the two-event trace are non-decreasing. -/
theorem updateSeats_signal_spec_witness :
    (holdNext holdStateAfterReserve
        (HoldEvent.updateSeats ["3A", "3B"] 840 none)).seats = ["3A", "3B"]
    ∧ (holdNext holdStateAfterReserve
        (HoldEvent.updateSeats ["3A", "3B"] 840 none)).expiresAt = 1740
    ∧ List.Chain' (fun a b => a.expiresAt ≤ b.expiresAt)
        ([HoldEvent.updateSeats ["3A", "3B"] 840 none,
          HoldEvent.proceedToPayment "99999" 120].scanl holdNext
          holdStateAfterReserve) := by
  have h := updateSeats_signal_spec holdStateAfterReserve ["3A", "3B"] 840 "x"
    [HoldEvent.updateSeats ["3A", "3B"] 840 none,
     HoldEvent.proceedToPayment "99999" 120]
    (by unfold expiryInvariant; decide)
  exact ⟨h.1.1, h.1.2.1, h.2.2.1⟩

/-! ## C4 — saga compensation on every exit -/

/-- Exiting with a non-nil error always runs the compensation: `ReleaseSeats`
on the final seat set on the disconnected context. -/
theorem finishWorkflow_true_spec (st : BState) :
    (finishWorkflow st true).compensated = true
    ∧ (finishWorkflow st true).status = st.status
    ∧ (finishWorkflow st true).seats = st.seats
    ∧ ActCall.releaseSeats st.seats true ∈ (finishWorkflow st true).calls := by
  unfold finishWorkflow
  simp

/-- Exiting normally with final status `CONFIRMED` skips the compensation. -/
theorem finishWorkflow_confirmed_spec (st : BState)
    (h : st.status = OrderStatus.confirmed) :
    (finishWorkflow st false).compensated = false
    ∧ (finishWorkflow st false).status = OrderStatus.confirmed := by
  unfold finishWorkflow
  rw [h]
  exact ⟨rfl, rfl⟩

/-- Every expired outcome of the hold phase carries status `EXPIRED`. -/
theorem runHold_expired_status :
    ∀ (evs : List HoldEvent) (st st' : BState),
      runHold st evs = HoldOutcome.expired st' →
      st'.status = OrderStatus.expired := by
  intro evs
  induction evs with
  | nil =>
      intro st st' h
      unfold runHold at h
      split at h
      · injection h with h
        rw [← h]
        rfl
      · exact HoldOutcome.noConfusion h
  | cons e rest ih =>
      intro st st' h
      unfold runHold at h
      split at h
      · injection h with h
        rw [← h]
        rfl
      · cases e with
        | updateSeats p dt r => exact ih _ _ h
        | proceedToPayment c dt => exact HoldOutcome.noConfusion h
        | cancelBooking dt => exact HoldOutcome.noConfusion h
        | timerFires =>
            injection h with h
            rw [← h]
            rfl

/-- Both conjuncts of the compensation contract for an error exit whose
final status is not `CONFIRMED`. -/
theorem exit_contract_of_failed (st : BState)
    (hst : st.status ≠ OrderStatus.confirmed) :
    ((finishWorkflow st true).status ≠ OrderStatus.confirmed →
      (finishWorkflow st true).compensated = true
      ∧ ActCall.releaseSeats (finishWorkflow st true).seats true
          ∈ (finishWorkflow st true).calls)
    ∧ ((finishWorkflow st true).status = OrderStatus.confirmed →
      (finishWorkflow st true).compensated = false) := by
  have hs := finishWorkflow_true_spec st
  constructor
  · intro _
    refine ⟨hs.1, ?_⟩
    rw [hs.2.2.1]
    exact hs.2.2.2
  · intro hc
    rw [hs.2.1] at hc
    exact absurd hc hst

/-- Both conjuncts of the compensation contract for the normal confirmed
exit. -/
theorem exit_contract_of_confirmed (st : BState)
    (hst : st.status = OrderStatus.confirmed) :
    ((finishWorkflow st false).status ≠ OrderStatus.confirmed →
      (finishWorkflow st false).compensated = true
      ∧ ActCall.releaseSeats (finishWorkflow st false).seats true
          ∈ (finishWorkflow st false).calls)
    ∧ ((finishWorkflow st false).status = OrderStatus.confirmed →
      (finishWorkflow st false).compensated = false) := by
  have hcs := finishWorkflow_confirmed_spec st hst
  constructor
  · intro hne
    exact absurd hcs.2 hne
  · intro _
    exact hcs.1

/-- Claim C4 (amended): once the compensation defer is installed — that is,
unless registering the status query handler itself failed, an exit at which
no seats are yet held — every workflow exit whose final status is not
`CONFIRMED` runs the deferred compensation, invoking `ReleaseSeats` on the
final seat set on the disconnected (non-cancellable) context, and the
normal `CONFIRMED` exit never runs it. -/
theorem compensation_on_every_exit (input : BookingWorkflowInput)
    (startNow : Nat) (env : WorkflowEnv) (ex : WorkflowExit)
    (hrun : runBookingWorkflow input startNow env = some ex)
    (hq : env.queryHandlerOk = true) :
    (ex.status ≠ OrderStatus.confirmed →
      ex.compensated = true ∧ ActCall.releaseSeats ex.seats true ∈ ex.calls)
    ∧ (ex.status = OrderStatus.confirmed → ex.compensated = false) := by
  simp only [runBookingWorkflow] at hrun
  split at hrun
  · split at hrun
    · split at hrun
      · -- reserve succeeded: the hold phase decides the path
        split at hrun
        · exact Option.noConfusion hrun
        · -- hold phase expired
          injection hrun with hrun
          rename_i st1 heq
          subst hrun
          exact exit_contract_of_failed st1
            (by
              intro hcon
              rw [runHold_expired_status _ _ _ heq] at hcon
              exact OrderStatus.noConfusion hcon)
        · -- canceled by user
          injection hrun with hrun
          subst hrun
          exact exit_contract_of_failed _
            (fun hcon => OrderStatus.noConfusion hcon)
        · -- payment phase
          split at hrun
          · -- payment failed
            injection hrun with hrun
            subst hrun
            exact exit_contract_of_failed _
              (fun hcon => OrderStatus.noConfusion hcon)
          · -- payment succeeded: ConfirmOrder decides
            split at hrun
            · injection hrun with hrun
              subst hrun
              exact exit_contract_of_confirmed _ rfl
            · injection hrun with hrun
              subst hrun
              exact exit_contract_of_failed _
                (fun hcon => OrderStatus.noConfusion hcon)
      · -- ReserveSeats failed
        injection hrun with hrun
        subst hrun
        exact exit_contract_of_failed _
          (fun hcon => OrderStatus.noConfusion hcon)
    · -- CreateOrder failed
      injection hrun with hrun
      subst hrun
      exact exit_contract_of_failed _
        (fun hcon => OrderStatus.noConfusion hcon)
  · -- SetQueryHandler failed: excluded by the hypothesis
    rename_i hng
    exact absurd hq hng

/-- Claim C4 (counterexample to the unrestricted claim): when registering
the status query handler fails, the workflow exits with a non-nil error and
final status `CREATED`, but the compensation block — installed only after
that call — does not run: no `ReleaseSeats` is scheduled. -/
theorem compensation_skipped_queryHandler_exit :
    (runBookingWorkflow ⟨"o1", "f1", ["1A"]⟩ 0 envQueryHandlerFails).map
        (fun ex => (ex.status, ex.errReturned, ex.compensated, ex.calls))
      = some (OrderStatus.created, true, false, [])
    ∧ OrderStatus.created ≠ OrderStatus.confirmed := by
  refine ⟨rfl, by decide⟩

/-- Witness for C4 on the user-cancel exit. -/
theorem compensation_on_every_exit_witness :
    runBookingWorkflow ⟨"o6", "f1", ["4A"]⟩ 0 envCancel = some cancelExit
    ∧ cancelExit.compensated = true
    ∧ ActCall.releaseSeats cancelExit.seats true ∈ cancelExit.calls := by
  refine ⟨rfl, ?_⟩
  have h := (compensation_on_every_exit ⟨"o6", "f1", ["4A"]⟩ 0 envCancel
    cancelExit rfl rfl).1 (by decide)
  exact h
